import Mathlib

/-!
Verification development for the TEE Similarity & Label Persistence Engine.

The repository's similarity engine, label database and coordinate mapper are
exercised by the scripts under `src/`; the numeric pipeline is transcribed
from `test_similarity_search.py` (normalize by 255, squared differences,
square root, inclusive threshold), the migration procedure from
`migrate_labels_to_sqlite.py`, and the viewer generator from
`create_web_viewer.py`. Components that live only in the excluded backend
(`backend.labels_db`, the coordinate mapper) are modelled from the spec, as
noted on each definition. All arithmetic is exact (ℚ / ℝ), standing for the
floating-point arithmetic of the source.
-/

namespace TEE

/-- A pixel address: integer column/row `(x, y)` (spec §3, PixelAddress). -/
abbrev Pixel := ℕ × ℕ

/-- Component-wise normalization from the 8-bit domain to `[0,1]`:
`np.array(v, dtype=np.float32) / 255.0` (`test_similarity_search.py`
lines 93-94), in exact rational arithmetic. -/
def normalize255 (v : List ℚ) : List ℚ := v.map (fun c => c / 255)

/-- Sum of squared component-wise differences, one row of
`np.sum((a - b) ** 2, axis=1)` (`test_similarity_search.py` lines 96-97). -/
def sumSqDiff (a b : List ℚ) : ℚ := (List.zipWith (fun x y => (x - y) ^ 2) a b).sum

/-- Per-pixel distance exactly as the code computes it: normalize the raw
query and the raw stored vector by 255, then take the square root of the sum
of squared differences (stored minus query, `test_similarity_search.py`
lines 93-97). -/
noncomputable def codeDistance (query stored : List ℚ) : ℝ :=
  Real.sqrt ((sumSqDiff (normalize255 stored) (normalize255 query) : ℚ) : ℝ)

/-- Spec-side formula for claim C1 only, written from the spec's words:
`sqrt(Σ (query[i] − stored[i])²)` as an index-wise sum over the
dimensionality `D` of the (already normalized) vectors. -/
noncomputable def specEuclid (query stored : List ℚ) : ℝ :=
  Real.sqrt ((∑ i ∈ Finset.range query.length,
    (query.getD i 0 - stored.getD i 0) ^ 2 : ℚ) : ℝ)

/-- Distance reported for a match, from its exactly-kept squared distance. -/
noncomputable def distOfSq (d2 : ℚ) : ℝ := Real.sqrt ((d2 : ℚ) : ℝ)

/-- Inclusive threshold acceptance, decided exactly on the squared distance:
`sqrt d2 ≤ t` iff `0 ≤ t` and `d2 ≤ t²` (spec §4.4 step 4 `distance ≤
threshold`; `distances <= th` in `test_similarity_search.py` line 111). -/
def keepMatch (d2 t : ℚ) : Bool := decide (0 ≤ t ∧ d2 ≤ t ^ 2)

/-- Core thresholded scan over an embedding set whose vectors are taken as
already normalized: per-entry squared distance, inclusive threshold filter,
stable ascending sort by distance (ties keep original order). Modelled from
the spec: the Similarity Search Engine itself lives in the excluded backend;
this transcribes steps 3-6 of spec §4.4 together with the distance
recomputation of `test_similarity_search.py` lines 96-111. Each match
carries its squared distance; the reported distance is `distOfSq` of it. -/
def searchNorm (store : List (Pixel × List ℚ)) (query : List ℚ) (t : ℚ) :
    List (Pixel × ℚ) :=
  ((store.map (fun e => (e.1, sumSqDiff e.2 query))).filter
      (fun m => keepMatch m.2 t)).insertionSort (fun a b => a.2 ≤ b.2)

/-- Full search pipeline of spec §4.4 steps 2-6: normalize both the query
and every stored embedding by dividing by 255, then scan, filter with the
inclusive threshold, and stably sort ascending by distance. -/
def search (store : List (Pixel × List ℚ)) (query : List ℚ) (t : ℚ) :
    List (Pixel × ℚ) :=
  ((store.map
      (fun e => (e.1, sumSqDiff (normalize255 e.2) (normalize255 query)))).filter
      (fun m => keepMatch m.2 t)).insertionSort (fun a b => a.2 ≤ b.2)

/-- Scenario A embedding set (spec §8): three pixels, `D = 2`, normalized
vectors `[0,0]`, `[0,1]`, `[10,10]`. -/
def scenarioA : List (Pixel × List ℚ) :=
  [((0, 0), [0, 0]), ((1, 0), [0, 1]), ((2, 0), [10, 10])]

/-! ## Label store and migration (`migrate_labels_to_sqlite.py`) -/

/-- One record of a legacy label file: `name` and `pixels` keys may each be
absent (a record with no pixel list is the malformed record of Scenario D). -/
structure LegacyLabel where
  lname : Option String
  pixels : Option (List Pixel)
deriving DecidableEq

/-- One legacy per-viewport file: the viewport name derived from the file
name, and the parsed `labels` list — `none` when `json.load` fails, and
`data.get('labels', [])` already defaulted to `[]` otherwise. -/
structure LegacyFile where
  viewport : String
  parse : Option (List LegacyLabel)
deriving DecidableEq

/-- A label row as persisted by the durable store. -/
structure StoredLabel where
  viewport : String
  lname : String
  pixels : List Pixel
deriving DecidableEq

/-- The durable label store, as the list of persisted label rows. -/
abbrev Store := List StoredLabel

/-- Modelled from the spec: `backend.labels_db.get_label_count` (absent from
`src/`) — number of labels currently stored for a viewport (spec §4.5). -/
def get_label_count (s : Store) (v : String) : ℕ :=
  (s.filter (fun l => l.viewport == v)).length

/-- Modelled from the spec: `backend.labels_db.save_label` (absent from
`src/`) — persists one label and its pixel set (spec §4.5); a record whose
pixel list is missing fails, which the caller records as a per-record
error (spec §8 Scenario D). -/
def save_label (s : Store) (v : String) (l : LegacyLabel) : Option Store :=
  match l.pixels with
  | none => none
  | some ps => some (s ++ [⟨v, l.lname.getD "unknown", ps⟩])

/-- Running state of one migration call: the durable store plus the run's
counters and error list (`migrate_labels_to_sqlite.py` lines 44-47). -/
structure MigState where
  store : Store
  totalLabels : ℕ
  totalPixels : ℕ
  errors : List String
deriving DecidableEq

/-- Inner per-record loop of `migrate` (lines 65-72): save each label; on
success bump the label and pixel counters, on failure append one error and
continue with the remaining records. -/
def saveLoop (v : String) (st : MigState) (ls : List LegacyLabel) : MigState :=
  ls.foldl (fun st l =>
    match save_label st.store v l with
    | some s' =>
        { st with
          store := s'
          totalLabels := st.totalLabels + 1
          totalPixels := st.totalPixels + (l.pixels.getD []).length }
    | none => { st with errors := st.errors ++ [v ++ "/" ++ l.lname.getD "unknown"] }) st

/-- Per-file step of `migrate` (lines 49-79): skip the file when the store
already holds labels for its viewport; otherwise parse it — a file-level
parse failure appends one error and moves on — and run the per-record loop. -/
def migrateFile (st : MigState) (f : LegacyFile) : MigState :=
  if 0 < get_label_count st.store f.viewport then st
  else
    match f.parse with
    | none => { st with errors := st.errors ++ [f.viewport] }
    | some ls => saveLoop f.viewport st ls

/-- The migration run over every discovered legacy file, starting from the
current durable store with fresh counters (lines 44-79). -/
def migrate (s : Store) (files : List LegacyFile) : MigState :=
  files.foldl migrateFile { store := s, totalLabels := 0, totalPixels := 0, errors := [] }

/-- Store-level failure: the schema cannot be created or opened (spec §4.5,
§7 `StorageUnavailable`). -/
inductive MigrateError where
  | storageUnavailable
deriving DecidableEq

/-- Whole migration entry point: `init_db()` runs outside any handler
(line 33), so a store-level failure aborts the run before any file is
touched; otherwise the batch runs to completion. `dbOk` models whether the
schema can be created/opened. -/
def migrateRun (dbOk : Bool) (s : Store) (files : List LegacyFile) :
    Except MigrateError MigState :=
  if dbOk then .ok (migrate s files) else .error .storageUnavailable

/-- Labels of a legacy file that `save_label` accepts, as stored rows; the
per-file step appends exactly these when the file is not skipped. -/
def fileAdds (f : LegacyFile) : Store :=
  (f.parse.getD []).filterMap
    (fun l => l.pixels.map (fun ps => ⟨f.viewport, l.lname.getD "unknown", ps⟩))

/-- Store-only abstraction of the per-file step. -/
def mstep (s : Store) (f : LegacyFile) : Store :=
  if 0 < get_label_count s f.viewport then s else s ++ fileAdds f

/-- Store-only abstraction of a whole run. -/
def mfold (s : Store) (files : List LegacyFile) : Store := files.foldl mstep s

/-- Scenario D record list: two valid labels around one malformed label
whose pixel list is missing (spec §8). -/
def scenarioDLabels : List LegacyLabel :=
  [ { lname := some "water", pixels := some [(0, 0), (0, 1)] }
  , { lname := some "broken", pixels := none }
  , { lname := some "roads", pixels := some [(1, 1)] } ]

/-- Scenario D legacy file: a fresh viewport with the records above. -/
def scenarioD : LegacyFile := { viewport := "demo", parse := some scenarioDLabels }

/-! ## Coordinate mapper (spec §4.2; absent from `src/`) -/

/-- Modelled from the spec: the raster geometry the Coordinate Mapper works
against — a north-up affine grid with top-left geographic corner
`(lat0, lon0)`, positive per-pixel extents `dLon`, `dLat` (degrees), and
pixel dimensions `width × height`. -/
structure Raster where
  lon0 : ℚ
  lat0 : ℚ
  dLon : ℚ
  dLat : ℚ
  width : ℕ
  height : ℕ
deriving DecidableEq

/-- Modelled from the spec: `geo_to_pixel(lat, lon, raster) → PixelAddress`
(spec §4.2) — the inverse affine transform followed by quantization to the
integer pixel containing the point, failing with `OutOfBounds` outside the
raster dimensions. `PixelAddress` is an integer column/row (spec §3). -/
def geo_to_pixel (r : Raster) (lat lon : ℚ) : Option (ℤ × ℤ) :=
  let x : ℤ := ⌊(lon - r.lon0) / r.dLon⌋
  let y : ℤ := ⌊(r.lat0 - lat) / r.dLat⌋
  if 0 ≤ x ∧ x < (r.width : ℤ) ∧ 0 ≤ y ∧ y < (r.height : ℤ) then some (x, y)
  else none

/-- Modelled from the spec: `pixel_to_geo(PixelAddress, raster) → (lat, lon)`
(spec §4.2) — the forward affine transform, reporting the geographic centre
of the addressed pixel. -/
def pixel_to_geo (r : Raster) (p : ℤ × ℤ) : ℚ × ℚ :=
  (r.lat0 - ((p.2 : ℚ) + 1 / 2) * r.dLat, r.lon0 + ((p.1 : ℚ) + 1 / 2) * r.dLon)

/-- Concrete raster used to exhibit the quantization error of the geo
round-trip: unit pixels, 10 × 10, top-left corner at `(0, 0)`. -/
def rasterCE : Raster := ⟨0, 0, 1, 1, 10, 10⟩

/-! ## Web viewer generator (`create_web_viewer.py`) -/

/-- Errors the Python runtime raises while `create_html_viewer` evaluates
its HTML f-string. -/
inductive PyError where
  | nameError (n : String)
  | attributeError (msg : String)
deriving DecidableEq

/-- Python truthiness of the optional `viewport_id` string argument:
`None` and the empty string are falsy. -/
def pyTruthyStr : Option String → Bool
  | none => false
  | some s => !(s == "")

/-- Zoom chosen from the bounds extent (`create_web_viewer.py` lines 52-60). -/
def zoomForExtent (extent : ℚ) : ℕ :=
  if extent < 1 / 20 then 15
  else if extent < 1 / 10 then 14
  else if extent < 1 / 5 then 13
  else 12

/-- Transcription of `create_html_viewer(viewport_id, viewport_bounds)`
(`create_web_viewer.py` lines 33-403), with the sample pyramid image taken
as absent (its bounds are only interpolated at a placeholder the f-string
never reaches). The bounds tuple is `(min_lat, min_lon, max_lat, max_lon)`.
The HTML f-string evaluates its placeholders left to right: first
`viewport_id.title()` (lines 81, 178) — an `AttributeError` when
`viewport_id` is `None` at that point — then the unbound name `CENTER`
(line 237), a `NameError`; the file write at line 402 is never reached, so
a successful result (output file name and HTML text) cannot occur. -/
def create_html_viewer (viewport_id : Option String)
    (viewport_bounds : Option (ℚ × ℚ × ℚ × ℚ)) : Except PyError (String × String) :=
  let _output_html :=
    if pyTruthyStr viewport_id then (viewport_id.getD "") ++ "_viewer.html"
    else "bangalore_viewer.html"
  match viewport_bounds with
  | some (minLat, minLon, maxLat, maxLon) =>
      let _center := ((minLat + maxLat) / 2, (minLon + maxLon) / 2)
      let _zoom := zoomForExtent (max (maxLat - minLat) (maxLon - minLon))
      match viewport_id with
      | none => .error (.attributeError "NoneType title")
      | some _ => .error (.nameError "CENTER")
  | none =>
      let _center := ((1297 : ℚ) / 100, (7759 : ℚ) / 100)
      let _zoom := 12
      .error (.nameError "CENTER")

/-! ## Basic lemmas about the distance computation -/

theorem sumSqDiff_nil_left (b : List ℚ) : sumSqDiff [] b = 0 := by
  simp [sumSqDiff]

theorem sumSqDiff_cons (x y : ℚ) (xs ys : List ℚ) :
    sumSqDiff (x :: xs) (y :: ys) = (x - y) ^ 2 + sumSqDiff xs ys := by
  simp [sumSqDiff]

theorem sumSqDiff_comm (a : List ℚ) : ∀ b : List ℚ, sumSqDiff a b = sumSqDiff b a := by
  induction a with
  | nil => intro b; cases b <;> simp [sumSqDiff]
  | cons x xs ih =>
    intro b
    cases b with
    | nil => simp [sumSqDiff]
    | cons y ys =>
      rw [sumSqDiff_cons, sumSqDiff_cons, ih ys]
      ring_nf

theorem sumSqDiff_self (a : List ℚ) : sumSqDiff a a = 0 := by
  induction a with
  | nil => rfl
  | cons x xs ih => rw [sumSqDiff_cons, ih]; ring

theorem sumSqDiff_nonneg (a : List ℚ) : ∀ b : List ℚ, 0 ≤ sumSqDiff a b := by
  induction a with
  | nil => intro b; simp [sumSqDiff]
  | cons x xs ih =>
    intro b
    cases b with
    | nil => simp [sumSqDiff]
    | cons y ys =>
      rw [sumSqDiff_cons]
      exact add_nonneg (sq_nonneg _) (ih ys)

theorem sumSqDiff_eq_range (a : List ℚ) :
    ∀ b : List ℚ, a.length = b.length →
      sumSqDiff a b = ∑ i ∈ Finset.range a.length, (a.getD i 0 - b.getD i 0) ^ 2 := by
  induction a with
  | nil => intro b _; simp [sumSqDiff]
  | cons x xs ih =>
    intro b hb
    cases b with
    | nil => simp at hb
    | cons y ys =>
      rw [sumSqDiff_cons, List.length_cons, Finset.sum_range_succ']
      simp only [List.getD_cons_succ, List.getD_cons_zero]
      rw [ih ys (by simpa using hb)]
      ring

theorem keepMatch_iff (d2 t : ℚ) :
    keepMatch d2 t = true ↔ Real.sqrt ((d2 : ℚ) : ℝ) ≤ ((t : ℚ) : ℝ) := by
  rw [keepMatch, decide_eq_true_iff, Real.sqrt_le_iff]
  constructor
  · rintro ⟨h1, h2⟩
    exact ⟨by exact_mod_cast h1, by exact_mod_cast h2⟩
  · rintro ⟨h1, h2⟩
    exact ⟨by exact_mod_cast h1, by exact_mod_cast h2⟩

/-! ## Claim theorems: similarity search -/

/-- C1: for every query vector and stored embedding of equal dimensionality,
the per-pixel distance the code computes equals the Euclidean distance
`sqrt(Σ (query[i] − stored[i])²)` taken after both vectors are normalized
from the 8-bit domain to `[0,1]` by dividing every component by 255. -/
theorem code_distance_is_normalized_euclid_c1 :
    ∀ (query stored : List ℚ), query.length = stored.length →
      codeDistance query stored = specEuclid (normalize255 query) (normalize255 stored) := by
  intro q s h
  unfold codeDistance specEuclid
  have hlen : (normalize255 q).length = (normalize255 s).length := by
    simp [normalize255, h]
  rw [sumSqDiff_comm, sumSqDiff_eq_range _ _ hlen]

/-- Witness for C1 at the concrete pair `[0, 255]`, `[255, 0]`. -/
theorem code_distance_is_normalized_euclid_c1_witness :
    ([0, 255] : List ℚ).length = ([255, 0] : List ℚ).length ∧
    codeDistance [0, 255] [255, 0] =
      specEuclid (normalize255 [0, 255]) (normalize255 [255, 0]) :=
  ⟨rfl, code_distance_is_normalized_euclid_c1 [0, 255] [255, 0] rfl⟩

/-- C5: on the Scenario A embedding set with query `[0,0]` and threshold
`1.5`, the search returns exactly pixel `(0,0)` at distance `0` and pixel
`(1,0)` at distance `1`, in that order; pixel `(2,0)` is excluded, its
distance `sqrt 200` lying between `14.1` and `14.2`. -/
theorem scenario_a_c5 :
    searchNorm scenarioA [0, 0] (3 / 2) = [((0, 0), 0), ((1, 0), 1)] ∧
    ((2, 0) : Pixel) ∉ (searchNorm scenarioA [0, 0] (3 / 2)).map Prod.fst ∧
    (searchNorm scenarioA [0, 0] (3 / 2)).map (fun m => distOfSq m.2) =
      [distOfSq 0, distOfSq 1] ∧
    distOfSq 0 = 0 ∧ distOfSq 1 = 1 ∧
    (141 / 10 : ℝ) ≤ distOfSq (sumSqDiff [10, 10] [0, 0]) ∧
    distOfSq (sumSqDiff [10, 10] [0, 0]) < 142 / 10 := by
  have h : searchNorm scenarioA [0, 0] (3 / 2) = [((0, 0), 0), ((1, 0), 1)] := by
    norm_num [searchNorm, scenarioA, sumSqDiff, keepMatch, List.insertionSort,
      List.orderedInsert, List.filter]
  have h200 : sumSqDiff [10, 10] [0, 0] = (200 : ℚ) := by norm_num [sumSqDiff]
  refine ⟨h, ?_, ?_, ?_, ?_, ?_, ?_⟩
  · rw [h]; decide
  · rw [h]; rfl
  · simp [distOfSq]
  · simp [distOfSq]
  · rw [h200]
    unfold distOfSq
    rw [show (((200 : ℚ) : ℝ)) = (200 : ℝ) by norm_num]
    rw [Real.le_sqrt (by norm_num) (by norm_num)]
    norm_num
  · rw [h200]
    unfold distOfSq
    rw [show (((200 : ℚ) : ℝ)) = (200 : ℝ) by norm_num]
    rw [Real.sqrt_lt' (by norm_num)]
    norm_num

/-- Counterexample for C9 as stated: with the stored embedding `[0]` and
query `[255]` at threshold `1/2`, the pipeline on the raw 8-bit vectors
returns no match, while the same pipeline fed the pre-divided vectors
(which it divides by 255 again) returns pixel `(0,0)` — the match sets
differ at the same threshold. -/
theorem normalization_counterexample_c9 :
    (search [((0, 0), [0])] [255] (1 / 2)).map Prod.fst ≠
      (search [((0, 0), (normalize255 [0]))] (normalize255 [255]) (1 / 2)).map Prod.fst := by
  norm_num [search, normalize255, sumSqDiff, keepMatch, List.insertionSort,
    List.orderedInsert, List.filter]

/-- C9 (amended): the pipeline run on raw 8-bit vectors yields the identical
match list to the core distance-threshold scan applied directly to the
pre-divided `[0,1]` vectors at the same threshold — consistency means the
pre-divided data is not normalized a second time. -/
theorem normalization_consistency_c9 :
    ∀ (store : List (Pixel × List ℚ)) (query : List ℚ) (t : ℚ),
      search store query t =
        searchNorm (store.map (fun e => (e.1, normalize255 e.2)))
          (normalize255 query) t := by
  intro store q t
  unfold search searchNorm
  rw [List.map_map]
  rfl

/-- C2: the match set returned by the search is exactly the set of pixels
whose distance to the query is at most the threshold — the boundary is
inclusive, so a pixel at distance exactly `t` is included. -/
theorem inclusive_threshold_c2 :
    ∀ (store : List (Pixel × List ℚ)) (query : List ℚ) (t : ℚ) (p : Pixel),
      p ∈ (search store query t).map Prod.fst ↔
        ∃ e ∈ store, e.1 = p ∧ codeDistance query e.2 ≤ ((t : ℚ) : ℝ) := by
  intro store q t p
  unfold search
  rw [List.mem_map]
  constructor
  · rintro ⟨m, hm, rfl⟩
    rw [List.mem_insertionSort _, List.mem_filter, List.mem_map] at hm
    obtain ⟨⟨e, he, rfl⟩, hkeep⟩ := hm
    exact ⟨e, he, rfl, (keepMatch_iff _ _).1 hkeep⟩
  · rintro ⟨e, he, rfl, hdist⟩
    refine ⟨(e.1, sumSqDiff (normalize255 e.2) (normalize255 q)), ?_, rfl⟩
    rw [List.mem_insertionSort _, List.mem_filter, List.mem_map]
    exact ⟨⟨e, he, rfl⟩, (keepMatch_iff _ _).2 hdist⟩

/-- C6: for a fixed query and embedding set, the number of matches at
threshold `t1` is at most the number of matches at threshold `t2` whenever
`t1 < t2`. -/
theorem threshold_monotonicity_c6 :
    ∀ (store : List (Pixel × List ℚ)) (query : List ℚ) (t1 t2 : ℚ), t1 < t2 →
      (search store query t1).length ≤ (search store query t2).length := by
  intro store q t1 t2 hlt
  unfold search
  rw [List.length_insertionSort, List.length_insertionSort]
  refine List.Sublist.length_le (List.monotone_filter_right _ ?_)
  intro m hm
  rw [keepMatch, decide_eq_true_iff] at hm ⊢
  obtain ⟨h0, hle⟩ := hm
  exact ⟨le_of_lt (lt_of_le_of_lt h0 hlt), hle.trans (pow_le_pow_left₀ h0 hlt.le 2)⟩

/-- Witness for C6: one stored pixel, thresholds `0 < 1`. -/
theorem threshold_monotonicity_c6_witness :
    (0 : ℚ) < 1 ∧
    (search [((0, 0), [0])] [0] 0).length ≤ (search [((0, 0), [0])] [0] 1).length :=
  ⟨by norm_num, threshold_monotonicity_c6 [((0, 0), [0])] [0] 0 1 (by norm_num)⟩

/-- C7: searching with the embedding of a stored pixel at threshold `0`
includes that pixel at distance `0`, and at any threshold `t ≤ 0` every
returned match has distance `0` (only exact matches). -/
theorem self_match_c7 :
    ∀ (store : List (Pixel × List ℚ)) (e : Pixel × List ℚ), e ∈ store →
      ((e.1, (0 : ℚ)) ∈ search store e.2 0 ∧
        ∀ (q : List ℚ) (t : ℚ), t ≤ 0 → ∀ m ∈ search store q t, m.2 = 0) := by
  intro store e he
  constructor
  · unfold search
    rw [List.mem_insertionSort _, List.mem_filter]
    constructor
    · rw [List.mem_map]
      exact ⟨e, he, by rw [sumSqDiff_self]⟩
    · show keepMatch 0 0 = true
      rw [keepMatch, decide_eq_true_iff]
      exact ⟨le_refl 0, by norm_num⟩
  · intro q t ht m hm
    unfold search at hm
    rw [List.mem_insertionSort _, List.mem_filter, List.mem_map] at hm
    obtain ⟨⟨e', _, rfl⟩, hkeep⟩ := hm
    rw [keepMatch, decide_eq_true_iff] at hkeep
    have h0 : t = 0 := le_antisymm ht hkeep.1
    have hub := hkeep.2
    rw [h0] at hub
    have hnn := sumSqDiff_nonneg (normalize255 e'.2) (normalize255 q)
    have : sumSqDiff (normalize255 e'.2) (normalize255 q) ≤ 0 := by simpa using hub
    exact le_antisymm this hnn

/-- Witness for C7: the first Scenario A pixel self-matches at threshold 0. -/
theorem self_match_c7_witness :
    ((((0, 0) : Pixel), ([0, 0] : List ℚ)) ∈ scenarioA) ∧
    (((0, 0) : Pixel), (0 : ℚ)) ∈ search scenarioA [0, 0] 0 :=
  ⟨by norm_num [scenarioA], (self_match_c7 scenarioA ((0, 0), [0, 0]) (by norm_num [scenarioA])).1⟩

/-! ## Lemmas about the migration procedure -/

theorem saveLoop_cons (v : String) (st : MigState) (l : LegacyLabel) (ls : List LegacyLabel) :
    saveLoop v st (l :: ls) =
      saveLoop v
        (match save_label st.store v l with
         | some s' =>
             { st with
               store := s'
               totalLabels := st.totalLabels + 1
               totalPixels := st.totalPixels + (l.pixels.getD []).length }
         | none =>
             { st with errors := st.errors ++ [v ++ "/" ++ l.lname.getD "unknown"] }) ls := rfl

theorem saveLoop_store (v : String) (ls : List LegacyLabel) :
    ∀ st : MigState,
      (saveLoop v st ls).store =
        st.store ++ ls.filterMap
          (fun l => l.pixels.map (fun ps => ⟨v, l.lname.getD "unknown", ps⟩)) := by
  induction ls with
  | nil => intro st; simp [saveLoop]
  | cons l ls ih =>
    intro st
    rw [saveLoop_cons]
    cases hl : l.pixels with
    | none => simp [save_label, hl, ih, List.filterMap_cons]
    | some ps => simp [save_label, hl, ih, List.filterMap_cons]

theorem saveLoop_totalLabels (v : String) (ls : List LegacyLabel) :
    ∀ st : MigState,
      (saveLoop v st ls).totalLabels =
        st.totalLabels + (ls.filter (fun l => l.pixels.isSome)).length := by
  induction ls with
  | nil => intro st; simp [saveLoop]
  | cons l ls ih =>
    intro st
    rw [saveLoop_cons]
    cases hl : l.pixels with
    | none => simp [save_label, hl, ih, List.filter_cons]
    | some ps => simp [save_label, hl, ih, List.filter_cons]; omega

theorem saveLoop_errors (v : String) (ls : List LegacyLabel) :
    ∀ st : MigState,
      (saveLoop v st ls).errors =
        st.errors ++ (ls.filter (fun l => l.pixels.isNone)).map
          (fun l => v ++ "/" ++ l.lname.getD "unknown") := by
  induction ls with
  | nil => intro st; simp [saveLoop]
  | cons l ls ih =>
    intro st
    rw [saveLoop_cons]
    cases hl : l.pixels with
    | none => simp [save_label, hl, ih, List.filter_cons]
    | some ps => simp [save_label, hl, ih, List.filter_cons]

theorem migrateFile_store (st : MigState) (f : LegacyFile) :
    (migrateFile st f).store = mstep st.store f := by
  unfold migrateFile mstep
  split_ifs with h
  · rfl
  · cases hp : f.parse with
    | none => simp [fileAdds, hp]
    | some ls => simp [saveLoop_store, fileAdds, hp]

theorem migrate_store_aux (files : List LegacyFile) :
    ∀ st : MigState, (files.foldl migrateFile st).store = mfold st.store files := by
  induction files with
  | nil => intro st; rfl
  | cons f fs ih =>
    intro st
    rw [List.foldl_cons, ih, migrateFile_store]
    rfl

theorem migrate_store (s : Store) (files : List LegacyFile) :
    (migrate s files).store = mfold s files :=
  migrate_store_aux files _

theorem get_label_count_append (a b : Store) (v : String) :
    get_label_count (a ++ b) v = get_label_count a v + get_label_count b v := by
  simp [get_label_count, List.filter_append]

theorem fileAdds_viewport (f : LegacyFile) :
    ∀ l ∈ fileAdds f, l.viewport = f.viewport := by
  intro l hl
  rw [fileAdds, List.mem_filterMap] at hl
  obtain ⟨a, _, ha⟩ := hl
  cases hp : a.pixels with
  | none => rw [hp] at ha; simp at ha
  | some ps =>
    rw [hp] at ha
    simp only [Option.map_some', Option.some.injEq] at ha
    rw [← ha]

theorem get_label_count_fileAdds (f : LegacyFile) :
    get_label_count (fileAdds f) f.viewport = (fileAdds f).length := by
  unfold get_label_count
  have h : (fileAdds f).filter (fun l => l.viewport == f.viewport) = fileAdds f :=
    List.filter_eq_self.2 (fun a ha => by
      simpa [beq_iff_eq] using fileAdds_viewport f a ha)
  rw [h]

theorem mfold_append (files : List LegacyFile) :
    ∀ s : Store, ∃ E : Store, mfold s files = s ++ E := by
  induction files with
  | nil => intro s; exact ⟨[], by simp [mfold]⟩
  | cons f fs ih =>
    intro s
    show ∃ E, mfold (mstep s f) fs = s ++ E
    unfold mstep
    split_ifs with h
    · exact ih s
    · obtain ⟨E, hE⟩ := ih (s ++ fileAdds f)
      exact ⟨fileAdds f ++ E, by rw [hE, List.append_assoc]⟩

theorem mstep_absorb (s E : Store) (f : LegacyFile) :
    mstep (mstep s f ++ E) f = mstep s f ++ E := by
  by_cases h : 0 < get_label_count s f.viewport
  · have hs : mstep s f = s := by rw [mstep, if_pos h]
    rw [hs]
    have h2 : 0 < get_label_count (s ++ E) f.viewport := by
      rw [get_label_count_append]; omega
    rw [mstep, if_pos h2]
  · have hs : mstep s f = s ++ fileAdds f := by rw [mstep, if_neg h]
    by_cases ha : fileAdds f = []
    · rw [hs, ha, List.append_nil]
      rw [mstep]
      split_ifs with h2
      · rfl
      · rw [ha, List.append_nil]
    · have hlen : 0 < (fileAdds f).length := List.length_pos.2 ha
      have h2 : 0 < get_label_count ((s ++ fileAdds f) ++ E) f.viewport := by
        rw [get_label_count_append, get_label_count_append, get_label_count_fileAdds]
        omega
      rw [hs, mstep, if_pos h2]

theorem mfold_idem (files : List LegacyFile) :
    ∀ s : Store, mfold (mfold s files) files = mfold s files := by
  induction files with
  | nil => intro s; rfl
  | cons f fs ih =>
    intro s
    show mfold (mstep (mfold (mstep s f) fs) f) fs = mfold (mstep s f) fs
    obtain ⟨E, hE⟩ := mfold_append fs (mstep s f)
    rw [hE, mstep_absorb, ← hE, ih]

/-! ## Claim theorems: migration -/

/-- C3: running migration a second time over the same legacy files leaves
the durable store unchanged (hence every label and pixel count is
unchanged), and any file whose viewport already has a positive label count
is skipped with the whole migration state untouched — no insert happens. -/
theorem migrate_idempotent_c3 :
    ∀ (s : Store) (files : List LegacyFile),
      (migrate (migrate s files).store files).store = (migrate s files).store ∧
      ∀ (st : MigState) (f : LegacyFile),
        0 < get_label_count st.store f.viewport → migrateFile st f = st := by
  intro s files
  constructor
  · rw [migrate_store, migrate_store, mfold_idem]
  · intro st f h
    rw [migrateFile, if_pos h]

/-- Witness for C3: a store that already holds one label for viewport `v`
makes the migration step skip the legacy file for `v`; the idempotence part
is instantiated on Scenario D. -/
theorem migrate_idempotent_c3_witness :
    0 < get_label_count [StoredLabel.mk "v" "a" []] "v" ∧
    migrateFile (MigState.mk [StoredLabel.mk "v" "a" []] 0 0 []) (LegacyFile.mk "v" none) =
      MigState.mk [StoredLabel.mk "v" "a" []] 0 0 [] ∧
    (migrate (migrate [] [scenarioD]).store [scenarioD]).store =
      (migrate [] [scenarioD]).store :=
  ⟨by decide,
    (migrate_idempotent_c3 [] []).2 _ _ (by decide),
    (migrate_idempotent_c3 [] [scenarioD]).1⟩

/-- C4: a record whose save fails appends one error and migration continues
with the remaining records (the counters and error list of a processed file
are exactly the valid-record count and the malformed-record messages);
Scenario D imports 2 labels with 1 error and completes; and the run aborts
if and only if the store-level schema open fails. -/
theorem migration_error_handling_c4 :
    (∀ (st : MigState) (f : LegacyFile) (ls : List LegacyLabel),
        get_label_count st.store f.viewport = 0 → f.parse = some ls →
        (migrateFile st f).totalLabels =
            st.totalLabels + (ls.filter (fun l => l.pixels.isSome)).length ∧
        (migrateFile st f).errors =
            st.errors ++ (ls.filter (fun l => l.pixels.isNone)).map
              (fun l => f.viewport ++ "/" ++ l.lname.getD "unknown")) ∧
    (migrateRun true [] [scenarioD] = Except.ok (migrate [] [scenarioD]) ∧
      (migrate [] [scenarioD]).totalLabels = 2 ∧
      (migrate [] [scenarioD]).errors.length = 1) ∧
    (∀ (dbOk : Bool) (s : Store) (files : List LegacyFile),
        (∃ r, migrateRun dbOk s files = Except.ok r) ↔ dbOk = true) := by
  refine ⟨?_, ⟨rfl, by decide, by decide⟩, ?_⟩
  · intro st f ls hc hp
    rw [migrateFile, if_neg (by omega), hp]
    exact ⟨saveLoop_totalLabels _ _ _, saveLoop_errors _ _ _⟩
  · intro dbOk s files
    cases dbOk with
    | true => exact ⟨fun _ => rfl, fun _ => ⟨migrate s files, rfl⟩⟩
    | false =>
      constructor
      · rintro ⟨r, hr⟩
        exact absurd hr (by simp [migrateRun])
      · intro h
        exact absurd h (by simp)

/-- Witness for C4: the per-file counting part instantiated on Scenario D
from the empty store. -/
theorem migration_error_handling_c4_witness :
    get_label_count (MigState.mk [] 0 0 []).store scenarioD.viewport = 0 ∧
    scenarioD.parse = some scenarioDLabels ∧
    (migrateFile (MigState.mk [] 0 0 []) scenarioD).totalLabels =
      (MigState.mk [] 0 0 []).totalLabels +
        ((scenarioDLabels).filter (fun l => l.pixels.isSome)).length :=
  ⟨rfl, rfl,
    (migration_error_handling_c4.1 (MigState.mk [] 0 0 []) scenarioD scenarioDLabels rfl
      rfl).1⟩

/-! ## Claim theorems: web viewer -/

/-- Counterexample for C10 as stated: with `viewport_id` omitted and
`viewport_bounds` given, the f-string fails at `viewport_id.title()` with an
`AttributeError`, not a `NameError`. -/
theorem viewer_nameerror_counterexample_c10 :
    create_html_viewer none (some (0, 0, 1, 1)) =
      Except.error (PyError.attributeError "NoneType title") ∧
    create_html_viewer none (some (0, 0, 1, 1)) ≠
      Except.error (PyError.nameError "CENTER") := by
  exact ⟨rfl, fun h => PyError.noConfusion (Except.error.inj h)⟩

/-- C10 (amended): `create_html_viewer` always raises before reaching the
output write, so no viewer file is produced; the unhandled error is the
`NameError` on the unbound placeholder `CENTER` for every argument
combination except `viewport_id` omitted with `viewport_bounds` given,
where `viewport_id.title()` raises an `AttributeError` first. -/
theorem viewer_build_error_c10 :
    ∀ (vid : Option String) (b : Option (ℚ × ℚ × ℚ × ℚ)),
      create_html_viewer vid b =
        Except.error
          (match vid, b with
           | none, some _ => PyError.attributeError "NoneType title"
           | _, _ => PyError.nameError "CENTER") := by
  intro vid b
  cases vid <;> rcases b with _ | ⟨⟨b1, b2, b3, b4⟩⟩ <;> rfl

/-! ## Claim theorems: coordinate mapper -/

/-- Counterexample for C8 as stated: on the unit-pixel raster, the point
`(lat, lon) = (-1/10, 1/10)` inside the footprint maps to pixel `(0, 0)`,
whose geographic centre is `(-1/2, 1/2)` — the round trip is off by `2/5`
of a degree, far beyond floating-point tolerance, because `geo_to_pixel`
quantizes to an integer pixel address. -/
theorem geo_roundtrip_counterexample_c8 :
    geo_to_pixel rasterCE (-1 / 10) (1 / 10) = some (0, 0) ∧
    pixel_to_geo rasterCE (0, 0) = (-(1 / 2), 1 / 2) ∧
    pixel_to_geo rasterCE (0, 0) ≠ ((-1 / 10 : ℚ), (1 / 10 : ℚ)) := by
  refine ⟨?_, ?_, ?_⟩
  · norm_num [geo_to_pixel, rasterCE]
  · norm_num [pixel_to_geo, rasterCE]
  · norm_num [pixel_to_geo, rasterCE, Prod.ext_iff]

/-- C8 (amended): for any point inside the raster footprint, the round trip
`pixel_to_geo (geo_to_pixel (lat, lon))` recovers `(lat, lon)` within half a
pixel in each coordinate (the quantization of the integer pixel address),
and on pixel addresses the transforms are exact inverses:
`geo_to_pixel (pixel_to_geo p) = p`. -/
theorem geo_roundtrip_c8 :
    ∀ (r : Raster) (lat lon : ℚ) (x y : ℤ),
      0 < r.dLon → 0 < r.dLat →
      geo_to_pixel r lat lon = some (x, y) →
      |(pixel_to_geo r (x, y)).1 - lat| ≤ r.dLat / 2 ∧
      |(pixel_to_geo r (x, y)).2 - lon| ≤ r.dLon / 2 ∧
      geo_to_pixel r (pixel_to_geo r (x, y)).1 (pixel_to_geo r (x, y)).2 = some (x, y) := by
  intro r lat lon x y hdlon hdlat h
  simp only [geo_to_pixel] at h
  split_ifs at h with hcond
  case _ =>
    rw [Option.some.injEq, Prod.mk.injEq] at h
    obtain ⟨hx, hy⟩ := h
    rw [hx, hy] at hcond
    have hx1 : (x : ℚ) * r.dLon ≤ lon - r.lon0 := by
      rw [← hx]
      calc (⌊(lon - r.lon0) / r.dLon⌋ : ℚ) * r.dLon
          ≤ ((lon - r.lon0) / r.dLon) * r.dLon :=
            mul_le_mul_of_nonneg_right (Int.floor_le _) (le_of_lt hdlon)
        _ = lon - r.lon0 := by field_simp
    have hx2 : lon - r.lon0 < ((x : ℚ) + 1) * r.dLon := by
      rw [← hx]
      calc lon - r.lon0 = ((lon - r.lon0) / r.dLon) * r.dLon := by field_simp
        _ < ((⌊(lon - r.lon0) / r.dLon⌋ : ℚ) + 1) * r.dLon :=
            mul_lt_mul_of_pos_right (Int.lt_floor_add_one _) hdlon
    have hy1 : (y : ℚ) * r.dLat ≤ r.lat0 - lat := by
      rw [← hy]
      calc (⌊(r.lat0 - lat) / r.dLat⌋ : ℚ) * r.dLat
          ≤ ((r.lat0 - lat) / r.dLat) * r.dLat :=
            mul_le_mul_of_nonneg_right (Int.floor_le _) (le_of_lt hdlat)
        _ = r.lat0 - lat := by field_simp
    have hy2 : r.lat0 - lat < ((y : ℚ) + 1) * r.dLat := by
      rw [← hy]
      calc r.lat0 - lat = ((r.lat0 - lat) / r.dLat) * r.dLat := by field_simp
        _ < ((⌊(r.lat0 - lat) / r.dLat⌋ : ℚ) + 1) * r.dLat :=
            mul_lt_mul_of_pos_right (Int.lt_floor_add_one _) hdlat
    refine ⟨?_, ?_, ?_⟩
    · show |r.lat0 - ((y : ℚ) + 1 / 2) * r.dLat - lat| ≤ r.dLat / 2
      rw [abs_le]
      constructor <;> nlinarith [hy1, hy2]
    · show |r.lon0 + ((x : ℚ) + 1 / 2) * r.dLon - lon| ≤ r.dLon / 2
      rw [abs_le]
      constructor <;> nlinarith [hx1, hx2]
    · show geo_to_pixel r (r.lat0 - ((y : ℚ) + 1 / 2) * r.dLat)
        (r.lon0 + ((x : ℚ) + 1 / 2) * r.dLon) = some (x, y)
      have hfx : ⌊(r.lon0 + ((x : ℚ) + 1 / 2) * r.dLon - r.lon0) / r.dLon⌋ = x := by
        rw [show (r.lon0 + ((x : ℚ) + 1 / 2) * r.dLon - r.lon0) / r.dLon
              = ((x : ℤ) : ℚ) + 1 / 2 from by field_simp; ring]
        rw [Int.floor_int_add]
        norm_num
      have hfy : ⌊(r.lat0 - (r.lat0 - ((y : ℚ) + 1 / 2) * r.dLat)) / r.dLat⌋ = y := by
        rw [show (r.lat0 - (r.lat0 - ((y : ℚ) + 1 / 2) * r.dLat)) / r.dLat
              = ((y : ℤ) : ℚ) + 1 / 2 from by field_simp; ring]
        rw [Int.floor_int_add]
        norm_num
      simp only [geo_to_pixel, hfx, hfy]
      rw [if_pos hcond]

/-- Witness for C8 (amended) on the unit-pixel raster at `(-1/10, 1/10)`. -/
theorem geo_roundtrip_c8_witness :
    (0 : ℚ) < rasterCE.dLon ∧ (0 : ℚ) < rasterCE.dLat ∧
    geo_to_pixel rasterCE (-1 / 10) (1 / 10) = some (0, 0) ∧
    |(pixel_to_geo rasterCE (0, 0)).1 - (-1 / 10)| ≤ rasterCE.dLat / 2 ∧
    geo_to_pixel rasterCE (pixel_to_geo rasterCE (0, 0)).1
      (pixel_to_geo rasterCE (0, 0)).2 = some (0, 0) :=
  ⟨by norm_num [rasterCE], by norm_num [rasterCE], by norm_num [geo_to_pixel, rasterCE],
    (geo_roundtrip_c8 rasterCE (-1 / 10) (1 / 10) 0 0 (by norm_num [rasterCE])
      (by norm_num [rasterCE]) (by norm_num [geo_to_pixel, rasterCE])).1,
    (geo_roundtrip_c8 rasterCE (-1 / 10) (1 / 10) 0 0 (by norm_num [rasterCE])
      (by norm_num [rasterCE]) (by norm_num [geo_to_pixel, rasterCE])).2.2⟩

end TEE
